import Mathlib

/-!
Shallow embedding of `nclink_client/nclink_model.py`: a typed hierarchical
node model (Device / Component / Config / DataItem / SampleChannel) with
derived addressing paths, id-keyed child registries with insert-once
semantics, and id-to-path / path-to-id lookup maps built in one pass.

Python dictionaries are modelled as association lists in insertion order
(`dictSet` updates an existing key in place and appends a fresh one, exactly
like Python dict assignment); mutating methods become pure functions
returning the updated object (paired with the boolean result where the
Python method returns one).  A node's `_parent` reference is modelled as a
snapshot of the fields the model ever reads through it (`path`,
`node_type`), taken at assignment time.
-/

namespace NclinkModel

/-- Python dict key-membership test (`k in d`). -/
def dictContains {α : Type} (d : List (String × α)) (k : String) : Bool :=
  d.any (fun p => p.1 == k)

/-- Python dict assignment `d[k] = v` for a key known to be absent: append. -/
def dictInsert {α : Type} (d : List (String × α)) (k : String) (v : α) :
    List (String × α) :=
  d ++ [(k, v)]

/-- Python dict assignment `d[k] = v`: update in place if the key exists,
append otherwise. -/
def dictSet {α : Type} (d : List (String × α)) (k : String) (v : α) :
    List (String × α) :=
  if dictContains d k then d.map (fun p => if p.1 == k then (k, v) else p)
  else d ++ [(k, v)]

/-- Python dict lookup `d[k]` as an option. -/
def dictGet? {α : Type} (d : List (String × α)) (k : String) : Option α :=
  (d.find? (fun p => p.1 == k)).map (fun p => p.2)

/-- Source `MS_IN_DAY = 24 * 3600 * 1000` from the source. -/
def MS_IN_DAY : Int := 24 * 3600 * 1000

/-- Source `NclinkNodeType` enum. -/
inductive NclinkNodeType where
  | InvalidNode
  | RootNode
  | DeviceNode
  | ConfigNode
  | DataItemNode
  | ComponentNode
  | SampleChannelNode
deriving DecidableEq, Repr

/-- Source `NcLinkValueType` enum. -/
inductive NcLinkValueType where
  | VT_Unknown
  | VT_Bool
  | VT_Char
  | VT_Short
  | VT_Int
  | VT_Float
  | VT_String
  | VT_JsonObjString
deriving DecidableEq, Repr

/-- Snapshot of the fields a child ever reads through its `_parent`
reference: the parent's `path` (read by the parent setters) and its
`node_type` (read by `NclinkConfigNode.validate`). -/
structure ParentRef where
  path : String
  node_type : NclinkNodeType
deriving DecidableEq, Repr

/-- Source `NclinkBaseNode`: fields set by `NclinkBaseNode.__init__`. -/
structure NclinkBaseNode where
  _id : String := ""
  _type : String := ""
  _node_type : NclinkNodeType := NclinkNodeType.InvalidNode
  _parent : Option ParentRef := none
  name : String := ""
  path : String := ""
  description : String := ""
deriving DecidableEq, Repr

/-- Source `NclinkBaseNode.__init__(id_, type_, name, node_type)`. -/
def mkBaseNode (id_ type_ name : String) (node_type : NclinkNodeType) :
    NclinkBaseNode :=
  { _id := id_, _type := type_, _node_type := node_type, name := name }

/-- Source `NclinkBaseNode.validate`: `id`, `type`, `name` all non-empty
(Python string truthiness). -/
def NclinkBaseNode.validate (n : NclinkBaseNode) : Bool :=
  !n._id.isEmpty && !n._type.isEmpty && !n.name.isEmpty

/-- Source `NclinkConfigNode`. -/
structure NclinkConfigNode extends NclinkBaseNode where
  value_type : NcLinkValueType := NcLinkValueType.VT_Unknown
  int_value : Int := 0
  str_value : String := ""
  data_type : String := ""
  settable : Bool := false
deriving DecidableEq, Repr

/-- Source `NclinkConfigNode.__init__(id_, type_, name)`. -/
def mkConfigNode (id_ type_ name : String) : NclinkConfigNode :=
  { mkBaseNode id_ type_ name NclinkNodeType.ConfigNode with }

/-- Source `NclinkConfigNode.parent` setter: store the reference; if it is truthy,
set `path = parent.path + "/" + type`. -/
def NclinkConfigNode.set_parent (n : NclinkConfigNode) (val : Option ParentRef) :
    NclinkConfigNode :=
  let n' := { n with _parent := val }
  match val with
  | some p => { n' with path := p.path ++ "/" ++ n._type }
  | none => n'

/-- Source `NclinkConfigNode.validate`. -/
def NclinkConfigNode.validate (n : NclinkConfigNode) : Bool :=
  if !(!n.path.isEmpty && n.toNclinkBaseNode.validate) then false
  else
    match n._parent with
    | some p =>
        p.node_type == NclinkNodeType.DeviceNode ||
          p.node_type == NclinkNodeType.ComponentNode
    | none => false

/-- Source `NclinkDataItemNode`. -/
structure NclinkDataItemNode extends NclinkBaseNode where
  number : String := ""
  data_type : String := ""
  settable : Bool := false
deriving DecidableEq, Repr

/-- Source `NclinkDataItemNode.__init__(id_, type_, name)`. -/
def mkDataItemNode (id_ type_ name : String) : NclinkDataItemNode :=
  { mkBaseNode id_ type_ name NclinkNodeType.DataItemNode with }

/-- Source `NclinkDataItemNode.parent` setter: store the reference; if it is truthy
and `type` is non-empty, recompute `path` (with `@number` when `number` is
non-empty). -/
def NclinkDataItemNode.set_parent (n : NclinkDataItemNode)
    (val : Option ParentRef) : NclinkDataItemNode :=
  let n' := { n with _parent := val }
  match val with
  | some p =>
      if !n._type.isEmpty then
        if !n.number.isEmpty then
          { n' with path := p.path ++ "/" ++ n._type ++ "@" ++ n.number }
        else
          { n' with path := p.path ++ "/" ++ n._type }
      else n'
  | none => n'

/-- Source `NclinkDataItemNode.validate`. -/
def NclinkDataItemNode.validate (n : NclinkDataItemNode) : Bool :=
  n._parent.isSome && !n.path.isEmpty && n.toNclinkBaseNode.validate

/-- Source `NclinkSampleChannelNode`. -/
structure NclinkSampleChannelNode extends NclinkBaseNode where
  _ids : List String := []
  _sample_point_count : Nat := 0
  _sample_points : List (String × NclinkBaseNode) := []
  sample_interval : Int := 0
  upload_interval : Int := 0
deriving DecidableEq, Repr

/-- Source `NclinkSampleChannelNode.__init__(id_, type_, name)`. -/
def mkSampleChannelNode (id_ type_ name : String) : NclinkSampleChannelNode :=
  { mkBaseNode id_ type_ name NclinkNodeType.SampleChannelNode with }

/-- Source `NclinkSampleChannelNode.parent` setter. -/
def NclinkSampleChannelNode.set_parent (n : NclinkSampleChannelNode)
    (val : Option ParentRef) : NclinkSampleChannelNode :=
  let n' := { n with _parent := val }
  match val with
  | some p => { n' with path := p.path ++ "/" ++ n._type }
  | none => n'

/-- Source `NclinkSampleChannelNode.validate`: structural base check, then the
interval-range conjunction. -/
def NclinkSampleChannelNode.validate (n : NclinkSampleChannelNode) : Bool :=
  if !(n._parent.isSome && !n.path.isEmpty && n.toNclinkBaseNode.validate) then
    false
  else
    decide (0 < n.sample_interval ∧ n.sample_interval ≤ MS_IN_DAY ∧
      0 < n.upload_interval ∧ n.upload_interval ≤ MS_IN_DAY ∧
      n.sample_interval ≤ n.upload_interval)

/-- Source `NclinkSampleChannelNode.add_sample_point(sp)`: reject a duplicate id and
node kinds other than DataItem/Config; otherwise cache the node. -/
def NclinkSampleChannelNode.add_sample_point (n : NclinkSampleChannelNode)
    (sp : NclinkBaseNode) : Bool × NclinkSampleChannelNode :=
  if dictContains n._sample_points sp._id then (false, n)
  else if !(sp._node_type == NclinkNodeType.DataItemNode ||
      sp._node_type == NclinkNodeType.ConfigNode) then (false, n)
  else (true, { n with _sample_points := dictInsert n._sample_points sp._id sp })

/-- Source `NclinkSampleChannelNode.add_sample_point_id(id_)`: reject a duplicate,
otherwise append to `_ids` and increment `_sample_point_count`. -/
def NclinkSampleChannelNode.add_sample_point_id (n : NclinkSampleChannelNode)
    (id_ : String) : Bool × NclinkSampleChannelNode :=
  if n._ids.contains id_ then (false, n)
  else (true, { n with _ids := n._ids ++ [id_],
                       _sample_point_count := n._sample_point_count + 1 })

/-- Base-node part of `NclinkComponentNode` plus its `number` field. -/
structure NclinkComponentCore extends NclinkBaseNode where
  number : String := ""
deriving DecidableEq, Repr

/-- Source `NclinkComponentNode`: recursive through its nested-component registry. -/
inductive NclinkComponentNode where
  | mk (core : NclinkComponentCore)
       (config_nodes : List (String × NclinkConfigNode))
       (data_item_nodes : List (String × NclinkDataItemNode))
       (component_nodes : List (String × NclinkComponentNode))

/-- The base fields (and `number`) of a component. -/
def NclinkComponentNode.core : NclinkComponentNode → NclinkComponentCore
  | .mk c _ _ _ => c

/-- Source `_config_nodes` registry of a component. -/
def NclinkComponentNode.config_nodes :
    NclinkComponentNode → List (String × NclinkConfigNode)
  | .mk _ cfg _ _ => cfg

/-- Source `_data_item_nodes` registry of a component. -/
def NclinkComponentNode.data_item_nodes :
    NclinkComponentNode → List (String × NclinkDataItemNode)
  | .mk _ _ di _ => di

/-- Source `_component_nodes` registry of a component. -/
def NclinkComponentNode.component_nodes :
    NclinkComponentNode → List (String × NclinkComponentNode)
  | .mk _ _ _ cps => cps

/-- Source `NclinkComponentNode.__init__(id_, type_, name)`. -/
def mkComponentNode (id_ type_ name : String) : NclinkComponentNode :=
  .mk { mkBaseNode id_ type_ name NclinkNodeType.ComponentNode with } [] [] []

/-- Source `NclinkComponentNode.parent` setter: same rule as DataItem. -/
def NclinkComponentNode.set_parent (n : NclinkComponentNode)
    (val : Option ParentRef) : NclinkComponentNode :=
  let c := n.core
  let c' := { c with _parent := val }
  let c'' :=
    match val with
    | some p =>
        if !c._type.isEmpty then
          if !c.number.isEmpty then
            { c' with path := p.path ++ "/" ++ c._type ++ "@" ++ c.number }
          else
            { c' with path := p.path ++ "/" ++ c._type }
        else c'
    | none => c'
  .mk c'' n.config_nodes n.data_item_nodes n.component_nodes

/-- Source `NclinkComponentNode.validate`. -/
def NclinkComponentNode.validate (n : NclinkComponentNode) : Bool :=
  n.core._parent.isSome && !n.core.path.isEmpty &&
    n.core.toNclinkBaseNode.validate

/-- Source `NclinkComponentNode.add_config_node(cn)`. -/
def NclinkComponentNode.add_config_node (n : NclinkComponentNode)
    (cn : NclinkConfigNode) : Bool × NclinkComponentNode :=
  if dictContains n.config_nodes cn._id then (false, n)
  else (true, .mk n.core (dictInsert n.config_nodes cn._id cn)
    n.data_item_nodes n.component_nodes)

/-- Source `NclinkComponentNode.add_data_item_node(din)`. -/
def NclinkComponentNode.add_data_item_node (n : NclinkComponentNode)
    (din : NclinkDataItemNode) : Bool × NclinkComponentNode :=
  if dictContains n.data_item_nodes din._id then (false, n)
  else (true, .mk n.core n.config_nodes
    (dictInsert n.data_item_nodes din._id din) n.component_nodes)

/-- Source `NclinkComponentNode.add_component_node(cpn)`. -/
def NclinkComponentNode.add_component_node (n : NclinkComponentNode)
    (cpn : NclinkComponentNode) : Bool × NclinkComponentNode :=
  if dictContains n.component_nodes cpn.core._id then (false, n)
  else (true, .mk n.core n.config_nodes n.data_item_nodes
    (dictInsert n.component_nodes cpn.core._id cpn))

/-- Source `NclinkDeviceNode`. -/
structure NclinkDeviceNode extends NclinkBaseNode where
  _version : String := ""
  _dev_guid : String := ""
  _sample_channel_nodes : List (String × NclinkSampleChannelNode) := []
  _config_nodes : List (String × NclinkConfigNode) := []
  _data_item_nodes : List (String × NclinkDataItemNode) := []
  _component_nodes : List (String × NclinkComponentNode) := []
  _node_dictionary : List (String × NclinkBaseNode) := []
  _id_to_path_map : List (String × String) := []
  _path_to_id_map : List (String × String) := []

/-- Source `NclinkDeviceNode.__init__(id_, type_, name, version)`: note it does not
derive `path`; the base constructor leaves `path` empty. -/
def mkDeviceNode (id_ type_ name version : String) : NclinkDeviceNode :=
  { mkBaseNode id_ type_ name NclinkNodeType.DeviceNode with _version := version }

/-- Source `NclinkDeviceNode.type` setter: replace `_type` and derive
`path = "NC_LINK_ROOT/" + val`. -/
def NclinkDeviceNode.set_type (d : NclinkDeviceNode) (val : String) :
    NclinkDeviceNode :=
  { d with _type := val, path := "NC_LINK_ROOT/" ++ val }

/-- Source `NclinkDeviceNode.dev_guid` setter. -/
def NclinkDeviceNode.set_dev_guid (d : NclinkDeviceNode) (val : String) :
    NclinkDeviceNode :=
  { d with _dev_guid := val }

/-- Source `NclinkDeviceNode.validate`. -/
def NclinkDeviceNode.validate (d : NclinkDeviceNode) : Bool :=
  !d._version.isEmpty && !d.path.isEmpty && d.toNclinkBaseNode.validate

/-- Source `NclinkDeviceNode.add_sample_channel_node(scn)`. -/
def NclinkDeviceNode.add_sample_channel_node (d : NclinkDeviceNode)
    (scn : NclinkSampleChannelNode) : Bool × NclinkDeviceNode :=
  if dictContains d._sample_channel_nodes scn._id then (false, d)
  else
    (true, { d with
      _sample_channel_nodes := dictInsert d._sample_channel_nodes scn._id scn })

/-- Source `NclinkDeviceNode.add_config_node(cn)`. -/
def NclinkDeviceNode.add_config_node (d : NclinkDeviceNode)
    (cn : NclinkConfigNode) : Bool × NclinkDeviceNode :=
  if dictContains d._config_nodes cn._id then (false, d)
  else (true, { d with _config_nodes := dictInsert d._config_nodes cn._id cn })

/-- Source `NclinkDeviceNode.add_data_item_node(din)`. -/
def NclinkDeviceNode.add_data_item_node (d : NclinkDeviceNode)
    (din : NclinkDataItemNode) : Bool × NclinkDeviceNode :=
  if dictContains d._data_item_nodes din._id then (false, d)
  else
    (true, { d with
      _data_item_nodes := dictInsert d._data_item_nodes din._id din })

/-- Source `NclinkDeviceNode.add_component_node(cpn)`. -/
def NclinkDeviceNode.add_component_node (d : NclinkDeviceNode)
    (cpn : NclinkComponentNode) : Bool × NclinkDeviceNode :=
  if dictContains d._component_nodes cpn.core._id then (false, d)
  else
    (true, { d with
      _component_nodes := dictInsert d._component_nodes cpn.core._id cpn })

/-- Source `NclinkDeviceNode.build_maps`: one pass over `_node_dictionary` values,
writing both `_id_to_path_map` and `_path_to_id_map` with Python dict
assignment semantics. -/
def NclinkDeviceNode.build_maps (d : NclinkDeviceNode) : NclinkDeviceNode :=
  let maps := d._node_dictionary.foldl
    (fun (acc : List (String × String) × List (String × String)) kv =>
      (dictSet acc.1 kv.2._id kv.2.path, dictSet acc.2 kv.2.path kv.2._id))
    (d._id_to_path_map, d._path_to_id_map)
  { d with _id_to_path_map := maps.1, _path_to_id_map := maps.2 }

/-- One call in a sequence of SampleChannel membership operations. -/
inductive ScOp where
  | addId (id_ : String)
  | addPoint (sp : NclinkBaseNode)

/-- Apply one membership call, keeping the updated channel. -/
def applyScOp (c : NclinkSampleChannelNode) (op : ScOp) :
    NclinkSampleChannelNode :=
  match op with
  | .addId i => (c.add_sample_point_id i).2
  | .addPoint sp => (c.add_sample_point sp).2

/-- Apply a sequence of membership calls in order. -/
def runScOps (c : NclinkSampleChannelNode) (ops : List ScOp) :
    NclinkSampleChannelNode :=
  ops.foldl applyScOp c

/-- Fold of Python dict assignments over a list of key-value writes, in
order; this is the per-map effect of one `build_maps` pass. -/
def setAll (m : List (String × String)) (ws : List (String × String)) :
    List (String × String) :=
  ws.foldl (fun acc w => dictSet acc w.1 w.2) m

/-- Projection of the base fields out of a built component. -/
@[simp] theorem NclinkComponentNode.core_mk (c : NclinkComponentCore)
    (cfg : List (String × NclinkConfigNode))
    (di : List (String × NclinkDataItemNode))
    (cps : List (String × NclinkComponentNode)) :
    (NclinkComponentNode.mk c cfg di cps).core = c := rfl

/-- Projection of the config registry out of a built component. -/
@[simp] theorem NclinkComponentNode.config_nodes_mk (c : NclinkComponentCore)
    (cfg : List (String × NclinkConfigNode))
    (di : List (String × NclinkDataItemNode))
    (cps : List (String × NclinkComponentNode)) :
    (NclinkComponentNode.mk c cfg di cps).config_nodes = cfg := rfl

/-- Projection of the data-item registry out of a built component. -/
@[simp] theorem NclinkComponentNode.data_item_nodes_mk (c : NclinkComponentCore)
    (cfg : List (String × NclinkConfigNode))
    (di : List (String × NclinkDataItemNode))
    (cps : List (String × NclinkComponentNode)) :
    (NclinkComponentNode.mk c cfg di cps).data_item_nodes = di := rfl

/-- Projection of the nested-component registry out of a built component. -/
@[simp] theorem NclinkComponentNode.component_nodes_mk (c : NclinkComponentCore)
    (cfg : List (String × NclinkConfigNode))
    (di : List (String × NclinkDataItemNode))
    (cps : List (String × NclinkComponentNode)) :
    (NclinkComponentNode.mk c cfg di cps).component_nodes = cps := rfl

section DictLemmas

/-- Unfolding of lookup on a cons cell. -/
theorem dictGet_cons {α : Type} (p : String × α) (t : List (String × α))
    (k : String) :
    dictGet? (p :: t) k = if p.1 = k then some p.2 else dictGet? t k := by
  simp only [dictGet?, List.find?]
  by_cases h : p.1 = k
  · simp [h]
  · simp [h, beq_eq_false_iff_ne.mpr h]

/-- A key absent from the list looks up to nothing. -/
theorem dictGet_eq_none {α : Type} (d : List (String × α)) (k : String)
    (h : dictContains d k = false) : dictGet? d k = none := by
  induction d with
  | nil => rfl
  | cons p t ih =>
      simp only [dictContains, List.any_cons, Bool.or_eq_false_iff] at h
      rw [dictGet_cons, if_neg (by simpa using h.1)]
      exact ih (by simp [dictContains, h.2])

/-- Replacing the entries at one key does not disturb lookups of other
keys. -/
theorem dictGet_map_set_ne {α : Type} (t : List (String × α)) (k : String)
    (v : α) (k' : String) (hk : k' ≠ k) :
    dictGet? (t.map (fun p => if p.1 == k then (k, v) else p)) k' =
      dictGet? t k' := by
  induction t with
  | nil => rfl
  | cons p t ih =>
      simp only [List.map_cons]
      by_cases hpk : p.1 = k
      · rw [if_pos (by simpa using hpk), dictGet_cons, dictGet_cons, ih,
          if_neg (fun h => hk h.symm), if_neg (by rw [hpk]; exact fun h => hk h.symm)]
      · rw [if_neg (by simpa using hpk), dictGet_cons, dictGet_cons, ih]

/-- Replacing the entries at a present key makes that key look up to the
new value. -/
theorem dictGet_map_set_eq {α : Type} (t : List (String × α)) (k : String)
    (v : α) (hc : dictContains t k = true) :
    dictGet? (t.map (fun p => if p.1 == k then (k, v) else p)) k = some v := by
  induction t with
  | nil => simp [dictContains] at hc
  | cons p t ih =>
      simp only [List.map_cons]
      by_cases hpk : p.1 = k
      · rw [if_pos (by simpa using hpk), dictGet_cons, if_pos rfl]
      · rw [if_neg (by simpa using hpk), dictGet_cons, if_neg hpk]
        refine ih ?_
        simpa [dictContains, beq_eq_false_iff_ne.mpr hpk] using hc

/-- Appending entries behind an absent key is what a lookup of that key
falls through to. -/
theorem dictGet_append_absent {α : Type} (m l : List (String × α))
    (k : String) (hc : dictContains m k = false) :
    dictGet? (m ++ l) k = dictGet? l k := by
  induction m with
  | nil => rfl
  | cons p t ih =>
      simp only [dictContains, List.any_cons, Bool.or_eq_false_iff] at hc
      rw [List.cons_append, dictGet_cons, if_neg (by simpa using hc.1)]
      exact ih (by simp [dictContains, hc.2])

/-- Appending entries at the back never disturbs keys they do not carry. -/
theorem dictGet_append_ne {α : Type} (m : List (String × α)) (k : String)
    (v : α) (k' : String) (hk : k' ≠ k) :
    dictGet? (m ++ [(k, v)]) k' = dictGet? m k' := by
  induction m with
  | nil =>
      rw [List.nil_append, dictGet_cons, if_neg (Ne.symm hk)]
  | cons p t ih => rw [List.cons_append, dictGet_cons, dictGet_cons, ih]

/-- Effect of one Python dict assignment on lookups: the assigned key now
maps to the new value, every other key is untouched. -/
theorem dictGet_dictSet {α : Type} (m : List (String × α)) (k : String)
    (v : α) (k' : String) :
    dictGet? (dictSet m k v) k' = if k' = k then some v else dictGet? m k' := by
  unfold dictSet
  by_cases hc : dictContains m k
  · rw [if_pos hc]
    by_cases hk : k' = k
    · rw [if_pos hk, hk, dictGet_map_set_eq m k v hc]
    · rw [if_neg hk, dictGet_map_set_ne m k v k' hk]
  · rw [if_neg hc]
    by_cases hk : k' = k
    · rw [if_pos hk, hk, dictGet_append_absent m [(k, v)] k (by simpa using hc),
        dictGet_cons, if_pos rfl]
    · rw [if_neg hk, dictGet_append_ne m k v k' hk]

/-- Writes to other keys do not disturb a lookup. -/
theorem dictGet_setAll_not_mem (ws : List (String × String))
    (m : List (String × String)) (k : String)
    (h : k ∉ ws.map Prod.fst) :
    dictGet? (setAll m ws) k = dictGet? m k := by
  induction ws generalizing m with
  | nil => rfl
  | cons w t ih =>
      simp only [List.map_cons, List.mem_cons] at h
      push_neg at h
      show dictGet? (setAll (dictSet m w.1 w.2) t) k = dictGet? m k
      rw [ih _ h.2, dictGet_dictSet, if_neg h.1]

/-- With pairwise-distinct keys, each written pair survives the whole pass. -/
theorem dictGet_setAll_mem (ws : List (String × String))
    (m : List (String × String)) (a b : String)
    (hnd : (ws.map Prod.fst).Nodup) (hmem : (a, b) ∈ ws) :
    dictGet? (setAll m ws) a = some b := by
  induction ws generalizing m with
  | nil => cases hmem
  | cons w t ih =>
      rw [List.map_cons, List.nodup_cons] at hnd
      rcases List.mem_cons.mp hmem with heq | htail
      · subst heq
        show dictGet? (setAll (dictSet m a b) t) a = some b
        rw [dictGet_setAll_not_mem t _ a hnd.1, dictGet_dictSet, if_pos rfl]
      · exact ih _ hnd.2 htail

end DictLemmas

/-- C1: every registry insertion (the four Device `add` methods, the three
Component `add` methods, and SampleChannel's `add_sample_point_id`) returns
false and leaves the whole object unchanged when the id is already a key of
that registry, and otherwise returns true and appends exactly that one
entry, leaving everything else untouched; no existing entry is ever
overwritten. -/
theorem registry_insert_once :
    (∀ (d : NclinkDeviceNode) (scn : NclinkSampleChannelNode),
      d.add_sample_channel_node scn =
        if dictContains d._sample_channel_nodes scn._id then (false, d)
        else (true, { d with
          _sample_channel_nodes := dictInsert d._sample_channel_nodes scn._id scn })) ∧
    (∀ (d : NclinkDeviceNode) (cn : NclinkConfigNode),
      d.add_config_node cn =
        if dictContains d._config_nodes cn._id then (false, d)
        else (true, { d with
          _config_nodes := dictInsert d._config_nodes cn._id cn })) ∧
    (∀ (d : NclinkDeviceNode) (din : NclinkDataItemNode),
      d.add_data_item_node din =
        if dictContains d._data_item_nodes din._id then (false, d)
        else (true, { d with
          _data_item_nodes := dictInsert d._data_item_nodes din._id din })) ∧
    (∀ (d : NclinkDeviceNode) (cpn : NclinkComponentNode),
      d.add_component_node cpn =
        if dictContains d._component_nodes cpn.core._id then (false, d)
        else (true, { d with
          _component_nodes := dictInsert d._component_nodes cpn.core._id cpn })) ∧
    (∀ (n : NclinkComponentNode) (cn : NclinkConfigNode),
      n.add_config_node cn =
        if dictContains n.config_nodes cn._id then (false, n)
        else (true, .mk n.core (dictInsert n.config_nodes cn._id cn)
          n.data_item_nodes n.component_nodes)) ∧
    (∀ (n : NclinkComponentNode) (din : NclinkDataItemNode),
      n.add_data_item_node din =
        if dictContains n.data_item_nodes din._id then (false, n)
        else (true, .mk n.core n.config_nodes
          (dictInsert n.data_item_nodes din._id din) n.component_nodes)) ∧
    (∀ (n : NclinkComponentNode) (cpn : NclinkComponentNode),
      n.add_component_node cpn =
        if dictContains n.component_nodes cpn.core._id then (false, n)
        else (true, .mk n.core n.config_nodes n.data_item_nodes
          (dictInsert n.component_nodes cpn.core._id cpn))) ∧
    (∀ (c : NclinkSampleChannelNode) (id_ : String),
      c.add_sample_point_id id_ =
        if c._ids.contains id_ then (false, c)
        else (true, { c with
          _ids := c._ids ++ [id_]
          _sample_point_count := c._sample_point_count + 1 })) := by
  refine ⟨fun d scn => rfl, fun d cn => rfl, fun d din => rfl,
    fun d cpn => rfl, fun n cn => rfl, fun n din => rfl,
    fun n cpn => rfl, fun c i => rfl⟩

/-- C3 counterexample: a Device constructed with the non-empty type
`"CNC1"` has an empty `path`, not `"NC_LINK_ROOT/CNC1"`: the constructor
stores the type without deriving the path (only the `type` setter does). -/
theorem device_ctor_path_cex :
    (mkDeviceNode "dev1" "CNC1" "nm" "v1")._type.isEmpty = false ∧
    (mkDeviceNode "dev1" "CNC1" "nm" "v1").path ≠
      "NC_LINK_ROOT/" ++ (mkDeviceNode "dev1" "CNC1" "nm" "v1")._type := by
  exact ⟨rfl, by decide⟩

/-- C3 (amended): assigning `type` through the Device `type` setter sets
`path` to `"NC_LINK_ROOT/"` followed by the assigned type (so a Device
given type `"CNC1"` via the setter has path `"NC_LINK_ROOT/CNC1"`), but a
type supplied at construction does not derive the path: a freshly
constructed Device always has an empty path. -/
theorem device_path_from_type_setter :
    (∀ (d : NclinkDeviceNode) (val : String),
      (d.set_type val).path = "NC_LINK_ROOT/" ++ val ∧
        (d.set_type val)._type = val) ∧
    ((mkDeviceNode "dev1" "CNC1" "nm" "v1").set_type "CNC1").path =
      "NC_LINK_ROOT/CNC1" ∧
    (∀ id_ type_ name version,
      (mkDeviceNode id_ type_ name version).path = "") := by
  exact ⟨fun d val => ⟨rfl, rfl⟩, rfl, fun id_ type_ name version => rfl⟩

/-- C8 counterexample: the Device `type` setter is a public operation of the
model and it changes the node's type after construction. -/
theorem type_immutable_cex :
    ((mkDeviceNode "dev1" "CNC1" "nm" "v1").set_type "CNC2")._type ≠
      (mkDeviceNode "dev1" "CNC1" "nm" "v1")._type := by
  decide

/-- C8 (amended): no public operation of the model changes a node's id, and
none changes a node's type either, with the single exception of the Device
`type` setter, which replaces the type (and re-derives the path); even that
setter leaves the id unchanged. -/
theorem id_type_immutability :
    (∀ (n : NclinkConfigNode) (v : Option ParentRef),
      (n.set_parent v)._id = n._id ∧ (n.set_parent v)._type = n._type) ∧
    (∀ (n : NclinkDataItemNode) (v : Option ParentRef),
      (n.set_parent v)._id = n._id ∧ (n.set_parent v)._type = n._type) ∧
    (∀ (n : NclinkSampleChannelNode) (v : Option ParentRef),
      (n.set_parent v)._id = n._id ∧ (n.set_parent v)._type = n._type) ∧
    (∀ (n : NclinkComponentNode) (v : Option ParentRef),
      (n.set_parent v).core._id = n.core._id ∧
        (n.set_parent v).core._type = n.core._type) ∧
    (∀ (c : NclinkSampleChannelNode) (sp : NclinkBaseNode),
      (c.add_sample_point sp).2._id = c._id ∧
        (c.add_sample_point sp).2._type = c._type) ∧
    (∀ (c : NclinkSampleChannelNode) (i : String),
      (c.add_sample_point_id i).2._id = c._id ∧
        (c.add_sample_point_id i).2._type = c._type) ∧
    (∀ (n : NclinkComponentNode) (cn : NclinkConfigNode),
      (n.add_config_node cn).2.core._id = n.core._id ∧
        (n.add_config_node cn).2.core._type = n.core._type) ∧
    (∀ (n : NclinkComponentNode) (din : NclinkDataItemNode),
      (n.add_data_item_node din).2.core._id = n.core._id ∧
        (n.add_data_item_node din).2.core._type = n.core._type) ∧
    (∀ (n cpn : NclinkComponentNode),
      (n.add_component_node cpn).2.core._id = n.core._id ∧
        (n.add_component_node cpn).2.core._type = n.core._type) ∧
    (∀ (d : NclinkDeviceNode) (scn : NclinkSampleChannelNode),
      (d.add_sample_channel_node scn).2._id = d._id ∧
        (d.add_sample_channel_node scn).2._type = d._type) ∧
    (∀ (d : NclinkDeviceNode) (cn : NclinkConfigNode),
      (d.add_config_node cn).2._id = d._id ∧
        (d.add_config_node cn).2._type = d._type) ∧
    (∀ (d : NclinkDeviceNode) (din : NclinkDataItemNode),
      (d.add_data_item_node din).2._id = d._id ∧
        (d.add_data_item_node din).2._type = d._type) ∧
    (∀ (d : NclinkDeviceNode) (cpn : NclinkComponentNode),
      (d.add_component_node cpn).2._id = d._id ∧
        (d.add_component_node cpn).2._type = d._type) ∧
    (∀ (d : NclinkDeviceNode) (v : String),
      (d.set_dev_guid v)._id = d._id ∧ (d.set_dev_guid v)._type = d._type) ∧
    (∀ (d : NclinkDeviceNode),
      d.build_maps._id = d._id ∧ d.build_maps._type = d._type) ∧
    (∀ (d : NclinkDeviceNode) (v : String), (d.set_type v)._id = d._id) := by
  refine ⟨?_, ?_, ?_, ?_, ?_, ?_, ?_, ?_, ?_, ?_, ?_, ?_, ?_,
    fun d v => ⟨rfl, rfl⟩, fun d => ⟨rfl, rfl⟩, fun d v => rfl⟩
  · intro n v; cases v <;> exact ⟨rfl, rfl⟩
  · intro n v
    cases v with
    | none => exact ⟨rfl, rfl⟩
    | some p =>
        cases h1 : n._type.isEmpty <;> cases h2 : n.number.isEmpty <;>
          exact ⟨by simp [NclinkDataItemNode.set_parent, h1, h2],
                 by simp [NclinkDataItemNode.set_parent, h1, h2]⟩
  · intro n v; cases v <;> exact ⟨rfl, rfl⟩
  · intro n v
    cases v with
    | none => exact ⟨rfl, rfl⟩
    | some p =>
        cases h1 : n.core._type.isEmpty <;> cases h2 : n.core.number.isEmpty <;>
          exact ⟨by simp [NclinkComponentNode.set_parent, h1, h2],
                 by simp [NclinkComponentNode.set_parent, h1, h2]⟩
  · intro c sp
    constructor <;>
      (unfold NclinkSampleChannelNode.add_sample_point
       split
       · rfl
       · split <;> rfl)
  · intro c i
    constructor <;>
      (unfold NclinkSampleChannelNode.add_sample_point_id; split <;> rfl)
  · intro n cn
    constructor <;>
      (unfold NclinkComponentNode.add_config_node; split <;> rfl)
  · intro n din
    constructor <;>
      (unfold NclinkComponentNode.add_data_item_node; split <;> rfl)
  · intro n cpn
    constructor <;>
      (unfold NclinkComponentNode.add_component_node; split <;> rfl)
  · intro d scn
    constructor <;>
      (unfold NclinkDeviceNode.add_sample_channel_node; split <;> rfl)
  · intro d cn
    constructor <;>
      (unfold NclinkDeviceNode.add_config_node; split <;> rfl)
  · intro d din
    constructor <;>
      (unfold NclinkDeviceNode.add_data_item_node; split <;> rfl)
  · intro d cpn
    constructor <;>
      (unfold NclinkDeviceNode.add_component_node; split <;> rfl)

/-- C7 counterexample: two DataItem nodes with the same (empty) type, the
same `number`, and the same new parent end with different paths after the
parent assignment, because an empty type suppresses the recomputation and
each node keeps its previous path; so the path is not determined solely by
the new parent's path and the node's own type and number. -/
theorem set_parent_path_cex :
    ({ mkDataItemNode "a" "" "nm" with path := "p1" } : NclinkDataItemNode)._type =
      ({ mkDataItemNode "b" "" "nm" with path := "p2" } : NclinkDataItemNode)._type ∧
    ({ mkDataItemNode "a" "" "nm" with path := "p1" } : NclinkDataItemNode).number =
      ({ mkDataItemNode "b" "" "nm" with path := "p2" } : NclinkDataItemNode).number ∧
    (({ mkDataItemNode "a" "" "nm" with path := "p1" } : NclinkDataItemNode).set_parent
        (some ⟨"NC_LINK_ROOT/CNC1", NclinkNodeType.DeviceNode⟩)).path ≠
      (({ mkDataItemNode "b" "" "nm" with path := "p2" } : NclinkDataItemNode).set_parent
        (some ⟨"NC_LINK_ROOT/CNC1", NclinkNodeType.DeviceNode⟩)).path := by
  exact ⟨rfl, rfl, by decide⟩

/-- C7 (amended): assigning a non-None parent recomputes the path
immediately from the new parent's path and the node's own type (and number)
for Config and SampleChannel nodes always, and for DataItem and Component
nodes whenever the node's type is non-empty; a DataItem or Component with
an empty type keeps its previous path. -/
theorem set_parent_path_rule :
    (∀ (n : NclinkConfigNode) (p : ParentRef),
      (n.set_parent (some p)).path = p.path ++ "/" ++ n._type) ∧
    (∀ (n : NclinkSampleChannelNode) (p : ParentRef),
      (n.set_parent (some p)).path = p.path ++ "/" ++ n._type) ∧
    (∀ (n : NclinkDataItemNode) (p : ParentRef),
      (n.set_parent (some p)).path =
        if n._type.isEmpty then n.path
        else if n.number.isEmpty then p.path ++ "/" ++ n._type
        else p.path ++ "/" ++ n._type ++ "@" ++ n.number) ∧
    (∀ (n : NclinkComponentNode) (p : ParentRef),
      (n.set_parent (some p)).core.path =
        if n.core._type.isEmpty then n.core.path
        else if n.core.number.isEmpty then p.path ++ "/" ++ n.core._type
        else p.path ++ "/" ++ n.core._type ++ "@" ++ n.core.number) := by
  refine ⟨fun n p => rfl, fun n p => rfl, ?_, ?_⟩
  · intro n p
    cases h1 : n._type.isEmpty <;> cases h2 : n.number.isEmpty <;>
      simp [NclinkDataItemNode.set_parent, h1, h2]
  · intro n p
    cases h1 : n.core._type.isEmpty <;> cases h2 : n.core.number.isEmpty <;>
      simp [NclinkComponentNode.set_parent, h1, h2]

/-- C4: for a DataItem or Component node with a non-empty type, assigning a
non-None parent sets the path to `parent.path ++ "/" ++ type ++ "@" ++
number` when `number` is non-empty, and to `parent.path ++ "/" ++ type`
when `number` is empty. -/
theorem child_path_number_rule :
    (∀ (n : NclinkDataItemNode) (p : ParentRef), n._type.isEmpty = false →
      (n.set_parent (some p)).path =
        if n.number.isEmpty then p.path ++ "/" ++ n._type
        else p.path ++ "/" ++ n._type ++ "@" ++ n.number) ∧
    (∀ (n : NclinkComponentNode) (p : ParentRef), n.core._type.isEmpty = false →
      (n.set_parent (some p)).core.path =
        if n.core.number.isEmpty then p.path ++ "/" ++ n.core._type
        else p.path ++ "/" ++ n.core._type ++ "@" ++ n.core.number) := by
  constructor
  · intro n p h
    cases h2 : n.number.isEmpty <;>
      simp [NclinkDataItemNode.set_parent, h, h2]
  · intro n p h
    cases h2 : n.core.number.isEmpty <;>
      simp [NclinkComponentNode.set_parent, h, h2]

/-- C4 witness: a Component with type `"axes"` and number `"2"` parented
under a device path `"NC_LINK_ROOT/CNC1"` gets path
`"NC_LINK_ROOT/CNC1/axes@2"`. -/
theorem child_path_number_rule_witness :
    ((NclinkComponentNode.mk
        { _id := "c1", _type := "axes",
          _node_type := NclinkNodeType.ComponentNode, name := "ax",
          number := "2" } [] [] []).set_parent
      (some ⟨"NC_LINK_ROOT/CNC1", NclinkNodeType.DeviceNode⟩)).core.path =
      "NC_LINK_ROOT/CNC1/axes@2" := by
  have h := child_path_number_rule.2
    (NclinkComponentNode.mk
      { _id := "c1", _type := "axes",
        _node_type := NclinkNodeType.ComponentNode, name := "ax",
        number := "2" } [] [] [])
    ⟨"NC_LINK_ROOT/CNC1", NclinkNodeType.DeviceNode⟩ (by decide)
  rw [h]
  decide

/-- C10: assigning None to `parent` stores None in `_parent` and leaves the
path unchanged, for all four child node kinds; and for DataItem and
Component nodes with an empty type, assigning any parent value stores it in
`_parent` and changes nothing else. -/
theorem set_parent_none_frame :
    (∀ (n : NclinkConfigNode), n.set_parent none = { n with _parent := none }) ∧
    (∀ (n : NclinkDataItemNode), n.set_parent none = { n with _parent := none }) ∧
    (∀ (n : NclinkSampleChannelNode),
      n.set_parent none = { n with _parent := none }) ∧
    (∀ (n : NclinkComponentNode),
      n.set_parent none = .mk { n.core with _parent := none }
        n.config_nodes n.data_item_nodes n.component_nodes) ∧
    (∀ (n : NclinkDataItemNode) (v : Option ParentRef), n._type.isEmpty = true →
      n.set_parent v = { n with _parent := v }) ∧
    (∀ (n : NclinkComponentNode) (v : Option ParentRef),
      n.core._type.isEmpty = true →
      n.set_parent v = .mk { n.core with _parent := v }
        n.config_nodes n.data_item_nodes n.component_nodes) := by
  refine ⟨fun n => rfl, fun n => rfl, fun n => rfl, fun n => rfl, ?_, ?_⟩
  · intro n v h
    cases v with
    | none => rfl
    | some p => simp [NclinkDataItemNode.set_parent, h]
  · intro n v h
    cases v with
    | none => rfl
    | some p => simp [NclinkComponentNode.set_parent, h]

/-- C10 witness: a DataItem with empty type, assigned a concrete parent,
keeps its path and only records the parent. -/
theorem set_parent_none_frame_witness :
    (mkDataItemNode "d1" "" "nm")._type.isEmpty = true ∧
    (mkDataItemNode "d1" "" "nm").set_parent
        (some ⟨"q", NclinkNodeType.DeviceNode⟩) =
      { mkDataItemNode "d1" "" "nm" with
        _parent := some ⟨"q", NclinkNodeType.DeviceNode⟩ } := by
  refine ⟨by decide, ?_⟩
  exact set_parent_none_frame.2.2.2.2.1 (mkDataItemNode "d1" "" "nm")
    (some ⟨"q", NclinkNodeType.DeviceNode⟩) (by decide)

/-- C5: for a Config node whose id, type, name and path are all non-empty,
`validate` returns true exactly when a parent is assigned and that parent's
node kind is Device or Component. -/
theorem config_validate_parent_rule (n : NclinkConfigNode)
    (hid : n._id.isEmpty = false) (hty : n._type.isEmpty = false)
    (hname : n.name.isEmpty = false) (hpath : n.path.isEmpty = false) :
    n.validate = true ↔
      ∃ p, n._parent = some p ∧
        (p.node_type = NclinkNodeType.DeviceNode ∨
          p.node_type = NclinkNodeType.ComponentNode) := by
  cases hp : n._parent with
  | none =>
      simp [NclinkConfigNode.validate, NclinkBaseNode.validate,
        hid, hty, hname, hpath, hp]
  | some p =>
      simp [NclinkConfigNode.validate, NclinkBaseNode.validate,
        hid, hty, hname, hpath, hp]

/-- C5 witness: a fully populated Config parented under a Component node
passes `validate`. -/
theorem config_validate_parent_rule_witness :
    ((mkConfigNode "c1" "t1" "n1").set_parent
      (some ⟨"NC_LINK_ROOT/CNC1", NclinkNodeType.ComponentNode⟩)).validate = true := by
  have h := config_validate_parent_rule
    ((mkConfigNode "c1" "t1" "n1").set_parent
      (some ⟨"NC_LINK_ROOT/CNC1", NclinkNodeType.ComponentNode⟩))
    (by decide) (by decide) (by decide) (by decide)
  exact h.mpr ⟨⟨"NC_LINK_ROOT/CNC1", NclinkNodeType.ComponentNode⟩, rfl,
    Or.inr rfl⟩

/-- C6: for a SampleChannel node with an assigned parent, a non-empty path,
and non-empty id, type and name, `validate` returns true exactly when both
intervals are in `(0, 86400000]` milliseconds and the sample interval does
not exceed the upload interval. -/
theorem sample_channel_validate_rule (n : NclinkSampleChannelNode)
    (hpar : n._parent.isSome = true) (hpath : n.path.isEmpty = false)
    (hid : n._id.isEmpty = false) (hty : n._type.isEmpty = false)
    (hname : n.name.isEmpty = false) :
    n.validate = true ↔
      (0 < n.sample_interval ∧ n.sample_interval ≤ 86400000 ∧
       0 < n.upload_interval ∧ n.upload_interval ≤ 86400000 ∧
       n.sample_interval ≤ n.upload_interval) := by
  unfold NclinkSampleChannelNode.validate
  rw [show MS_IN_DAY = 86400000 from rfl]
  simp [NclinkBaseNode.validate, hpar, hpath, hid, hty, hname]

/-- C6 witness: sample interval 1000 with upload interval 1000 on an
otherwise fully populated channel is valid. -/
theorem sample_channel_validate_rule_witness :
    (({ mkSampleChannelNode "s1" "t1" "n1" with
        sample_interval := 1000, upload_interval := 1000 } :
          NclinkSampleChannelNode).set_parent
      (some ⟨"NC_LINK_ROOT/CNC1", NclinkNodeType.DeviceNode⟩)).validate = true := by
  have h := sample_channel_validate_rule
    (({ mkSampleChannelNode "s1" "t1" "n1" with
        sample_interval := 1000, upload_interval := 1000 } :
          NclinkSampleChannelNode).set_parent
      (some ⟨"NC_LINK_ROOT/CNC1", NclinkNodeType.DeviceNode⟩))
    (by decide) (by decide) (by decide) (by decide) (by decide)
  exact h.mpr (by refine ⟨by decide, by decide, by decide, by decide, by decide⟩)

/-- The membership counter stays in lock-step with the id list across one
membership call. -/
theorem applyScOp_count_invariant (c : NclinkSampleChannelNode) (op : ScOp)
    (h : c._sample_point_count = c._ids.length) :
    (applyScOp c op)._sample_point_count = (applyScOp c op)._ids.length := by
  cases op with
  | addId i =>
      simp only [applyScOp]
      unfold NclinkSampleChannelNode.add_sample_point_id
      split
      · exact h
      · simp [h]
  | addPoint sp =>
      simp only [applyScOp]
      unfold NclinkSampleChannelNode.add_sample_point
      split
      · exact h
      · split
        · exact h
        · exact h

/-- The membership counter stays in lock-step with the id list across any
sequence of membership calls. -/
theorem runScOps_count_invariant (ops : List ScOp)
    (c : NclinkSampleChannelNode)
    (h : c._sample_point_count = c._ids.length) :
    (runScOps c ops)._sample_point_count = (runScOps c ops)._ids.length := by
  induction ops generalizing c with
  | nil => exact h
  | cons op t ih =>
      show (runScOps (applyScOp c op) t)._sample_point_count = _
      exact ih _ (applyScOp_count_invariant c op h)

/-- C9: starting from a freshly constructed SampleChannel, any sequence of
`add_sample_point_id` and `add_sample_point` calls keeps
`sample_point_count` equal to the length of `ids`; `add_sample_point` never
touches `ids` or the counter, and `add_sample_point_id` never touches the
`sample_points` map. -/
theorem sample_channel_bookkeeping :
    (∀ (id_ type_ name : String) (ops : List ScOp),
      (runScOps (mkSampleChannelNode id_ type_ name) ops)._sample_point_count =
        (runScOps (mkSampleChannelNode id_ type_ name) ops)._ids.length) ∧
    (∀ (c : NclinkSampleChannelNode) (sp : NclinkBaseNode),
      (c.add_sample_point sp).2._ids = c._ids ∧
        (c.add_sample_point sp).2._sample_point_count = c._sample_point_count) ∧
    (∀ (c : NclinkSampleChannelNode) (i : String),
      (c.add_sample_point_id i).2._sample_points = c._sample_points) := by
  refine ⟨fun id_ type_ name ops => runScOps_count_invariant ops _ rfl, ?_, ?_⟩
  · intro c sp
    constructor <;>
      (unfold NclinkSampleChannelNode.add_sample_point
       split
       · rfl
       · split <;> rfl)
  · intro c i
    unfold NclinkSampleChannelNode.add_sample_point_id
    split <;> rfl

/-- One `build_maps` pass is, on each of the two maps, a fold of Python
dict assignments over the node dictionary's values. -/
theorem build_maps_fold_split (l : List (String × NclinkBaseNode))
    (m1 m2 : List (String × String)) :
    l.foldl (fun acc kv =>
        (dictSet acc.1 kv.2._id kv.2.path, dictSet acc.2 kv.2.path kv.2._id))
      (m1, m2) =
      (setAll m1 (l.map (fun kv => (kv.2._id, kv.2.path))),
       setAll m2 (l.map (fun kv => (kv.2.path, kv.2._id)))) := by
  induction l generalizing m1 m2 with
  | nil => rfl
  | cons kv t ih =>
      simp only [List.foldl_cons, List.map_cons]
      exact ih _ _

/-- The id-to-path map after `build_maps`. -/
theorem build_maps_id_map (d : NclinkDeviceNode) :
    d.build_maps._id_to_path_map =
      setAll d._id_to_path_map
        (d._node_dictionary.map (fun kv => (kv.2._id, kv.2.path))) :=
  congrArg Prod.fst
    (build_maps_fold_split d._node_dictionary d._id_to_path_map d._path_to_id_map)

/-- The path-to-id map after `build_maps`. -/
theorem build_maps_path_map (d : NclinkDeviceNode) :
    d.build_maps._path_to_id_map =
      setAll d._path_to_id_map
        (d._node_dictionary.map (fun kv => (kv.2.path, kv.2._id))) :=
  congrArg Prod.snd
    (build_maps_fold_split d._node_dictionary d._id_to_path_map d._path_to_id_map)

/-- C2 (amended): after `build_maps()`, every node that was present among
the node dictionary's values at build time satisfies
`id_to_path_map[node.id] = node.path` and
`path_to_id_map[node.path] = node.id`, provided no two values of the
dictionary share an id and no two share a path (a later duplicate would
silently overwrite the earlier entry). -/
theorem build_maps_round_trip (d : NclinkDeviceNode)
    (hid : (d._node_dictionary.map (fun kv => kv.2._id)).Nodup)
    (hpath : (d._node_dictionary.map (fun kv => kv.2.path)).Nodup)
    (k : String) (n : NclinkBaseNode) (hmem : (k, n) ∈ d._node_dictionary) :
    dictGet? d.build_maps._id_to_path_map n._id = some n.path ∧
    dictGet? d.build_maps._path_to_id_map n.path = some n._id := by
  constructor
  · rw [build_maps_id_map]
    apply dictGet_setAll_mem
    · simpa [List.map_map, Function.comp] using hid
    · exact List.mem_map_of_mem (fun kv => (kv.2._id, kv.2.path)) hmem
  · rw [build_maps_path_map]
    apply dictGet_setAll_mem
    · simpa [List.map_map, Function.comp] using hpath
    · exact List.mem_map_of_mem (fun kv => (kv.2.path, kv.2._id)) hmem

/-- C2 witness: a dictionary with two distinct ids and paths round-trips in
both directions. -/
theorem build_maps_round_trip_witness :
    dictGet? ({ mkDeviceNode "dev" "CNC1" "nm" "v1" with _node_dictionary :=
      [("k1", { _id := "x1", path := "q1" }),
       ("k2", { _id := "x2", path := "q2" })] } :
        NclinkDeviceNode).build_maps._id_to_path_map "x1" = some "q1" := by
  have h := build_maps_round_trip
    ({ mkDeviceNode "dev" "CNC1" "nm" "v1" with _node_dictionary :=
      [("k1", { _id := "x1", path := "q1" }),
       ("k2", { _id := "x2", path := "q2" })] } : NclinkDeviceNode)
    (by decide) (by decide) "k1" { _id := "x1", path := "q1" } (by decide)
  exact h.1

/-- C2 counterexample: with two dictionary values sharing the id `"x"`, the
earlier node fails the round trip: the later write overwrites its
id-to-path entry. -/
theorem build_maps_round_trip_cex :
    ("k1", ({ _id := "x", path := "p1" } : NclinkBaseNode)) ∈
      ({ mkDeviceNode "dev" "CNC1" "nm" "v1" with _node_dictionary :=
        [("k1", { _id := "x", path := "p1" }),
         ("k2", { _id := "x", path := "p2" })] } :
          NclinkDeviceNode)._node_dictionary ∧
    dictGet? ({ mkDeviceNode "dev" "CNC1" "nm" "v1" with _node_dictionary :=
        [("k1", { _id := "x", path := "p1" }),
         ("k2", { _id := "x", path := "p2" })] } :
          NclinkDeviceNode).build_maps._id_to_path_map
        ({ _id := "x", path := "p1" } : NclinkBaseNode)._id ≠
      some ({ _id := "x", path := "p1" } : NclinkBaseNode).path := by
  exact ⟨by decide, by decide⟩

end NclinkModel
